import Mathlib

/-!
Verification of the lecture-notes content pipeline (`src/app.py`).

Python strings are modelled as Lean `String`s, manipulated through their
underlying `List Char` (Python strings are sequences of code points).
Each definition mirrors one expression or statement of `app.py`.
-/

/-- `leadsWith n h` is true when the char list `n` is an initial segment of `h`. -/
def leadsWith : List Char → List Char → Bool
  | [], _ => true
  | _ :: _, [] => false
  | a :: as, b :: bs => a == b && leadsWith as bs

/-- Substring containment on char lists: models Python's `in` on strings. -/
def containsSub (needle : List Char) : List Char → Bool
  | [] => leadsWith needle []
  | c :: rest => leadsWith needle (c :: rest) || containsSub needle rest

/-- Python `str.strip()`: drop leading and trailing whitespace. -/
def stripChars (l : List Char) : List Char :=
  ((l.dropWhile Char.isWhitespace).reverse.dropWhile Char.isWhitespace).reverse

/-- Python `str.strip()` lifted to `String`. -/
def pyStrip (s : String) : String := String.mk (stripChars s.data)

/-- Python `str.upper()` (ASCII). -/
def pyUpper (s : String) : String := String.mk (s.data.map Char.toUpper)

/-- Python `str.lower()` (ASCII). -/
def pyLower (s : String) : String := String.mk (s.data.map Char.toLower)

/-- Prepend a character to the first fragment of a split-in-progress. -/
def consHead (c : Char) : List (List Char) → List (List Char)
  | [] => [[c]]
  | h :: t => (c :: h) :: t

/-- Python `str.split("**")`: split on every non-overlapping, leftmost-first
occurrence of the two-character marker `**`, markers discarded
(`app.py` line 190). -/
def splitStars : List Char → List (List Char)
  | [] => [[]]
  | [c] => [[c]]
  | c :: d :: rest =>
    if c = '*' ∧ d = '*' then [] :: splitStars rest
    else consHead c (splitStars (d :: rest))

/-- Python `str.split('.')` on a single-character separator (`app.py` line 99). -/
def pySplitDot : List Char → List (List Char)
  | [] => [[]]
  | c :: rest =>
    if c = '.' then [] :: pySplitDot rest
    else consHead c (pySplitDot rest)

/-- Python `[-1]` on a never-empty list of fragments. -/
def lastElem : List (List Char) → List Char
  | [] => []
  | [x] => x
  | _ :: x :: rest => lastElem (x :: rest)

/-- `uploaded_file.name.split('.')[-1].lower()` (`app.py` line 99). -/
def file_extension (filename : String) : String :=
  String.mk ((lastElem (pySplitDot filename.data)).map Char.toLower)

/-- The fixed extension-to-MIME table (`app.py` lines 100-109). -/
def mime_type_map : List (String × String) :=
  [("mp3", "audio/mp3"), ("mpeg", "audio/mpeg"), ("mpga", "audio/mpeg"),
   ("mp4", "audio/mp4"), ("m4a", "audio/mp4"), ("wav", "audio/wav"),
   ("webm", "audio/webm"), ("aac", "audio/aac")]

/-- `mime_type_map.get(file_extension, 'audio/mpeg')` (`app.py` line 111). -/
def resolveMime (filename : String) : String :=
  (mime_type_map.lookup (file_extension filename)).getD "audio/mpeg"

/-- The three extracted study sections (tabs 2-4 of `app.py`). -/
structure SectionedNotes where
  summary : String
  keyPoints : String
  quiz : String
deriving DecidableEq, Repr

/-- `generated_content.split("**")` as a list of `String` fragments. -/
def sectionsOf (rawText : String) : List String :=
  (splitStars rawText.data).map String.mk

/-- Does a fragment's upper-cased form contain the label
(`if "SUMMARY" in section.upper()` and its two siblings)? -/
def fragMatches (label : String) (frag : String) : Bool :=
  containsSub label.data (frag.data.map Char.toUpper)

/-- The `for i, section in enumerate(sections): ... break / else:` search of
`app.py` lines 195-200 (and 208-213, 220-225): the first fragment whose
upper-cased form contains the label and which has a following fragment
yields that following fragment, stripped; otherwise the loop falls to the
`else:` fallback, modelled here as `none`. -/
def findSectionContent (label : String) : List String → Option String
  | f :: g :: rest =>
    if fragMatches label f then some (pyStrip g) else findSectionContent label (g :: rest)
  | _ => none

/-- SUMMARY fallback (`app.py` line 203):
`generated_content[:500] + "..." if len(generated_content) > 500 else generated_content`. -/
def summaryFallback (rawText : String) : String :=
  if 500 < rawText.data.length then String.mk (rawText.data.take 500) ++ "..." else rawText

/-- KEY POINTS fallback (`app.py` line 215). -/
def keyPointsFallback : String := "Key points extracted from the lecture content."

/-- QUIZ fallback (`app.py` line 227). -/
def quizFallback : String := "Quiz questions based on the lecture content."

/-- SectionExtractor: the parsing of `generated_content` into the three tabs
(`app.py` lines 190-227). -/
def extract (rawText : String) : SectionedNotes :=
  let sections := sectionsOf rawText
  { summary := (findSectionContent "SUMMARY" sections).getD (summaryFallback rawText)
    keyPoints := (findSectionContent "KEY POINTS" sections).getD keyPointsFallback
    quiz := (findSectionContent "QUIZ" sections).getD quizFallback }

/-- The fixed base transcription instruction (`app.py` lines 114-116). -/
def transcriptionBase : String :=
  "Please transcribe this audio file accurately. \n                Provide the complete transcript with proper punctuation, paragraph breaks, \n                and speaker identification if multiple speakers are present."

/-- The clause appended when timestamps are requested (`app.py` line 119). -/
def timestampClause : String := " Include timestamps where possible."

/-- `transcription_prompt` construction (`app.py` lines 114-119). -/
def buildTranscriptionPrompt (include_timestamps : Bool) : String :=
  if include_timestamps then transcriptionBase ++ timestampClause else transcriptionBase

/-- Study-prompt template text before the SUMMARY header (`app.py` lines 160-163). -/
def studySeg1 : String :=
  "You are an expert educational assistant. Based on the following lecture transcript, \n                    please generate comprehensive study materials:\n\n                    1. "

/-- Study-prompt template text between the SUMMARY and KEY POINTS headers. -/
def studySeg2 : String :=
  ": Write a concise 3-4 sentence summary of the main topic and key concepts.\n\n                    2. "

/-- Study-prompt template text between the KEY POINTS and QUIZ headers. -/
def studySeg3 : String :=
  ": Create a bullet-point list of the most important concepts, facts, and ideas. \n                       Organize them logically and use clear, educational language.\n\n                    3. "

/-- Study-prompt template text between the QUIZ header and `{num_questions}`. -/
def studySeg4 : String := ": Create "

/-- Study-prompt template text between the difficulty label and `{transcript_text}`. -/
def studySeg5 : String :=
  "-level multiple-choice questions to test understanding. \n                       For each question:\n                       - Provide 4 answer options (A, B, C, D)\n                       - Clearly indicate the correct answer\n                       - Include a brief explanation for why the answer is correct\n\n                    Transcript:\n                    ---\n                    "

/-- Study-prompt template text after `{transcript_text}` (`app.py` line 178). -/
def studySeg6 : String :=
  "\n\n                    Please format your response with clear headers and organize the content for easy reading."

/-- `study_prompt` f-string (`app.py` lines 160-178): the fixed template with
`{num_questions}`, `{quiz_difficulty.lower()}` and `{transcript_text}` spliced in. -/
def buildStudyPrompt (transcript_text : String) (num_questions : Nat)
    (quiz_difficulty : String) : String :=
  studySeg1 ++ "**SUMMARY**" ++ studySeg2 ++ "**KEY POINTS**" ++ studySeg3 ++ "**QUIZ**" ++
    studySeg4 ++ toString num_questions ++ " " ++ pyLower quiz_difficulty ++ studySeg5 ++
    transcript_text ++ studySeg6

/-- `f"LECTURE NOTES\n\n{generated_content}"` (`app.py` line 236). -/
def completeNotesExport (generated_content : String) : String :=
  "LECTURE NOTES\n\n" ++ generated_content

/-- The `study_guide` Markdown f-string (`app.py` lines 243-254). -/
def studyGuideExport (filename transcript_text generated_content : String) : String :=
  "\n" ++ "# Study Guide" ++ ": " ++ filename ++ "\n\n" ++ "## Transcript\n" ++
    transcript_text ++ "\n\n" ++ "## Generated Study Materials\n" ++ generated_content ++
    "\n\n---\nGenerated by Lecture Voice-to-Notes Generator\n"

/-- Terminal outcome of one pipeline run (`app.py` lines 93-263): transcription
error, empty stripped transcript, generation error with the transcript kept,
or full success. -/
inductive PipelineOutcome where
  | transcriptionFailed (msg : String)
  | emptyTranscript
  | generationFailed (transcript : String) (msg : String)
  | complete (transcript : String) (notes : SectionedNotes)
deriving DecidableEq, Repr

/-- The pipeline control flow of `app.py` lines 133-263, parametric in the two
backend calls (external collaborators, each an `Except` of error message or
response text). On transcription error the handler sets `transcript_text = ""`
(line 153); `if transcript_text:` (line 156) guards the study-material stage.
The second component counts study-material generation requests issued. -/
def runPipeline (transcription : Except String String)
    (generation : Except String String) : PipelineOutcome × Nat :=
  match transcription with
  | .error e => (.transcriptionFailed e, 0)
  | .ok raw =>
    let transcript_text := pyStrip raw
    if transcript_text = "" then (.emptyTranscript, 0)
    else
      match generation with
      | .error e => (.generationFailed transcript_text e, 1)
      | .ok generated_content => (.complete transcript_text (extract generated_content), 1)

/-! ### Helper lemmas -/

lemma leadsWith_append (m b : List Char) : leadsWith m (m ++ b) = true := by
  induction m with
  | nil => rfl
  | cons a as ih => simp [leadsWith, ih]

lemma containsSub_nil_needle (q : List Char) : containsSub [] q = true := by
  cases q <;> simp [containsSub, leadsWith]

lemma containsSub_intro (m p q h : List Char) (hh : h = p ++ (m ++ q)) :
    containsSub m h = true := by
  subst hh
  induction p with
  | nil =>
    cases m with
    | nil => exact containsSub_nil_needle q
    | cons a as =>
      have h1 := leadsWith_append (a :: as) q
      rw [List.cons_append] at h1
      simp [containsSub, h1]
  | cons c cs ih => simp [containsSub, ih]

lemma consHead_ne_nil (c : Char) (l : List (List Char)) : consHead c l ≠ [] := by
  cases l <;> simp [consHead]

lemma splitStars_ne_nil (l : List Char) : splitStars l ≠ [] := by
  cases l with
  | nil => simp [splitStars]
  | cons c rest =>
    cases rest with
    | nil => simp [splitStars]
    | cons d rest2 =>
      simp only [splitStars]
      split
      · simp
      · exact consHead_ne_nil c _

lemma containsSub_tail (n : List Char) (c : Char) (rest : List Char)
    (h : containsSub n rest = true) : containsSub n (c :: rest) = true := by
  simp [containsSub, h]

lemma splitStars_no_marker (l : List Char)
    (h : containsSub ['*', '*'] l = false) : splitStars l = [l] := by
  induction l using splitStars.induct with
  | case1 => rfl
  | case2 c => rfl
  | case3 c d rest hm ih =>
    exfalso
    obtain ⟨hc, hd⟩ := hm
    subst hc; subst hd
    simp [containsSub, leadsWith] at h
  | case4 c d rest hm ih =>
    have hr : containsSub ['*', '*'] (d :: rest) = false := by
      cases hc : containsSub ['*', '*'] (d :: rest) with
      | false => rfl
      | true => rw [containsSub_tail _ c _ hc] at h; exact absurd h (by simp)
    simp only [splitStars, if_neg hm, ih hr, consHead]

lemma findSectionContent_eq_some (label : String) (l : List String) (i : Nat)
    (h : i + 1 < l.length)
    (hm : fragMatches label (l.getD i "") = true)
    (hleast : ∀ j, j < i → fragMatches label (l.getD j "") = false) :
    findSectionContent label l = some (pyStrip (l.getD (i + 1) "")) := by
  induction l generalizing i with
  | nil => simp at h
  | cons f tl ih =>
    cases tl with
    | nil => simp at h
    | cons g rest =>
      cases i with
      | zero =>
        simp only [List.getD_cons_zero] at hm
        simp [findSectionContent, hm]
      | succ i' =>
        have h0 : fragMatches label f = false := by
          have := hleast 0 (Nat.succ_pos i')
          simpa using this
        simp only [findSectionContent, h0]
        rw [if_neg (by simp [h0])]
        exact ih i' (by simpa using h) (by simpa using hm)
          (fun j hj => by simpa using hleast (j + 1) (Nat.succ_lt_succ hj))

lemma findSectionContent_eq_none (label : String) (l : List String)
    (h : ∀ i, i + 1 < l.length → fragMatches label (l.getD i "") = false) :
    findSectionContent label l = none := by
  induction l with
  | nil => rfl
  | cons f tl ih =>
    cases tl with
    | nil => rfl
    | cons g rest =>
      have h0 : fragMatches label f = false := by simpa using h 0 (by simp)
      simp only [findSectionContent]
      rw [if_neg (by simp [h0])]
      exact ih (fun i hi => by simpa using h (i + 1) (by simpa using Nat.succ_lt_succ hi))

lemma pySplitDot_ne_nil (l : List Char) : pySplitDot l ≠ [] := by
  cases l with
  | nil => simp [pySplitDot]
  | cons c rest =>
    simp only [pySplitDot]
    split
    · simp
    · exact consHead_ne_nil c _

lemma pySplitDot_no_dot (l : List Char) (h : '.' ∉ l) : pySplitDot l = [l] := by
  induction l with
  | nil => rfl
  | cons c rest ih =>
    have hc : ¬ c = '.' := fun hh => h (hh ▸ List.mem_cons_self c rest)
    have hr : '.' ∉ rest := fun hm => h (List.mem_cons_of_mem c hm)
    simp only [pySplitDot, if_neg hc, ih hr, consHead]

lemma pySplitDot_dot_cons (l : List Char) : pySplitDot ('.' :: l) = [] :: pySplitDot l := by
  simp [pySplitDot]

lemma pySplitDot_cons_of_ne (c : Char) (l : List Char) (hc : ¬ c = '.') :
    pySplitDot (c :: l) = consHead c (pySplitDot l) := by
  simp [pySplitDot, hc]

lemma two_le_length_pySplitDot (b e : List Char) :
    2 ≤ (pySplitDot (b ++ '.' :: e)).length := by
  induction b with
  | nil =>
    have h1 : 1 ≤ (pySplitDot e).length := List.length_pos.mpr (pySplitDot_ne_nil e)
    rw [List.nil_append, pySplitDot_dot_cons, List.length_cons]
    omega
  | cons c cs ih =>
    by_cases hc : c = '.'
    · subst hc
      have h1 : 1 ≤ (pySplitDot (cs ++ '.' :: e)).length :=
        List.length_pos.mpr (pySplitDot_ne_nil _)
      rw [List.cons_append, pySplitDot_dot_cons, List.length_cons]
      omega
    · rw [List.cons_append, pySplitDot_cons_of_ne c _ hc]
      cases hs : pySplitDot (cs ++ '.' :: e) with
      | nil => exact absurd hs (pySplitDot_ne_nil _)
      | cons hd tl =>
        have h2 := ih
        rw [hs] at h2
        simp only [consHead, List.length_cons]
        simp only [List.length_cons] at h2
        omega

lemma lastElem_cons_of_ne_nil (a : List Char) (l : List (List Char)) (h : l ≠ []) :
    lastElem (a :: l) = lastElem l := by
  cases l with
  | nil => exact absurd rfl h
  | cons x rest => rfl

lemma lastElem_pySplitDot_append (b e : List Char) (h : '.' ∉ e) :
    lastElem (pySplitDot (b ++ '.' :: e)) = e := by
  induction b with
  | nil =>
    rw [List.nil_append, pySplitDot_dot_cons, pySplitDot_no_dot e h]
    rfl
  | cons c cs ih =>
    by_cases hc : c = '.'
    · subst hc
      rw [List.cons_append, pySplitDot_dot_cons,
        lastElem_cons_of_ne_nil _ _ (pySplitDot_ne_nil _)]
      exact ih
    · rw [List.cons_append, pySplitDot_cons_of_ne c _ hc]
      cases hs : pySplitDot (cs ++ '.' :: e) with
      | nil => exact absurd hs (pySplitDot_ne_nil _)
      | cons hd tl =>
        have hlen := two_le_length_pySplitDot cs e
        rw [hs] at hlen
        simp only [List.length_cons] at hlen
        have htl : tl ≠ [] := by
          cases tl with
          | nil => simp at hlen
          | cons x xs => simp
        have h1 : lastElem (consHead c (hd :: tl)) = lastElem tl := by
          simp only [consHead]
          exact lastElem_cons_of_ne_nil _ _ htl
        rw [h1, ← lastElem_cons_of_ne_nil hd tl htl, ← hs]
        exact ih

lemma resolveMime_no_dot (f : String) (h : '.' ∉ f.data) :
    resolveMime f =
      (mime_type_map.lookup (String.mk (f.data.map Char.toLower))).getD "audio/mpeg" := by
  unfold resolveMime file_extension
  rw [pySplitDot_no_dot f.data h]
  rfl

lemma data_dot_append (b e : String) : (b ++ "." ++ e).data = b.data ++ '.' :: e.data := by
  simp [String.data_append]

lemma resolveMime_with_dot (b e : String) (h : '.' ∉ e.data) :
    resolveMime (b ++ "." ++ e) =
      (mime_type_map.lookup (String.mk (e.data.map Char.toLower))).getD "audio/mpeg" := by
  unfold resolveMime file_extension
  rw [data_dot_append, lastElem_pySplitDot_append b.data e.data h]

lemma sectionsOf_no_marker (s : String) (h : containsSub ['*', '*'] s.data = false) :
    sectionsOf s = [s] := by
  unfold sectionsOf
  rw [splitStars_no_marker s.data h]
  rfl

lemma extract_summary_of_none (s : String)
    (h : findSectionContent "SUMMARY" (sectionsOf s) = none) :
    (extract s).summary = summaryFallback s := by
  simp [extract, h]

lemma extract_keyPoints_of_none (s : String)
    (h : findSectionContent "KEY POINTS" (sectionsOf s) = none) :
    (extract s).keyPoints = keyPointsFallback := by
  simp [extract, h]

lemma extract_quiz_of_none (s : String)
    (h : findSectionContent "QUIZ" (sectionsOf s) = none) :
    (extract s).quiz = quizFallback := by
  simp [extract, h]

lemma extract_summary_of_some (s c : String)
    (h : findSectionContent "SUMMARY" (sectionsOf s) = some c) :
    (extract s).summary = c := by
  simp [extract, h]

lemma extract_keyPoints_of_some (s c : String)
    (h : findSectionContent "KEY POINTS" (sectionsOf s) = some c) :
    (extract s).keyPoints = c := by
  simp [extract, h]

lemma extract_quiz_of_some (s c : String)
    (h : findSectionContent "QUIZ" (sectionsOf s) = some c) :
    (extract s).quiz = c := by
  simp [extract, h]

/-! ### Claim theorems -/

/-- Claim C1: `SectionExtractor.extract` on the well-formed input
`"...**SUMMARY**\nfoo\n**KEY POINTS**\nbar\n**QUIZ**\nbaz"` returns summary
`"foo"`, key points `"bar"` and quiz `"baz"`; in general, after splitting the
raw text on `**`, each label's content is the fragment immediately following
the first fragment whose upper-cased form contains that label, trimmed of
surrounding whitespace. -/
theorem C1_section_extraction :
    (extract "...**SUMMARY**\nfoo\n**KEY POINTS**\nbar\n**QUIZ**\nbaz" =
      { summary := "foo", keyPoints := "bar", quiz := "baz" })
    ∧ (∀ (raw : String) (i : Nat), i + 1 < (sectionsOf raw).length →
        fragMatches "SUMMARY" ((sectionsOf raw).getD i "") = true →
        (∀ j, j < i → fragMatches "SUMMARY" ((sectionsOf raw).getD j "") = false) →
        (extract raw).summary = pyStrip ((sectionsOf raw).getD (i + 1) ""))
    ∧ (∀ (raw : String) (i : Nat), i + 1 < (sectionsOf raw).length →
        fragMatches "KEY POINTS" ((sectionsOf raw).getD i "") = true →
        (∀ j, j < i → fragMatches "KEY POINTS" ((sectionsOf raw).getD j "") = false) →
        (extract raw).keyPoints = pyStrip ((sectionsOf raw).getD (i + 1) ""))
    ∧ (∀ (raw : String) (i : Nat), i + 1 < (sectionsOf raw).length →
        fragMatches "QUIZ" ((sectionsOf raw).getD i "") = true →
        (∀ j, j < i → fragMatches "QUIZ" ((sectionsOf raw).getD j "") = false) →
        (extract raw).quiz = pyStrip ((sectionsOf raw).getD (i + 1) "")) := by
  refine ⟨by decide, ?_, ?_, ?_⟩
  · intro raw i h hm hleast
    exact extract_summary_of_some raw _ (findSectionContent_eq_some _ _ i h hm hleast)
  · intro raw i h hm hleast
    exact extract_keyPoints_of_some raw _ (findSectionContent_eq_some _ _ i h hm hleast)
  · intro raw i h hm hleast
    exact extract_quiz_of_some raw _ (findSectionContent_eq_some _ _ i h hm hleast)

theorem C1_section_extraction_witness :
    (extract "a**SUMMARY**b").summary = "b" := by
  have h := C1_section_extraction.2.1 "a**SUMMARY**b" 1 (by decide) (by decide)
    (fun j hj => by
      have hj0 : j = 0 := by omega
      subst hj0
      decide)
  rw [h]
  decide

/-- Claim C2: on input with no `**` marker (and likewise whenever a label has
no matching non-final fragment) `extract` falls back: the summary is the first
500 characters of the raw text, ellipsis-suffixed iff the text is longer than
500 characters, and key points and quiz are their fixed placeholder strings. -/
theorem C2_extract_fallbacks :
    (∀ s : String, containsSub ['*', '*'] s.data = false →
      (extract s).summary = summaryFallback s
      ∧ (extract s).keyPoints = keyPointsFallback
      ∧ (extract s).quiz = quizFallback
      ∧ (500 < s.data.length → (extract s).summary = String.mk (s.data.take 500) ++ "...")
      ∧ (s.data.length ≤ 500 → (extract s).summary = s))
    ∧ (∀ s : String,
        (∀ i, i + 1 < (sectionsOf s).length →
          fragMatches "SUMMARY" ((sectionsOf s).getD i "") = false) →
        (extract s).summary = summaryFallback s)
    ∧ (∀ s : String,
        (∀ i, i + 1 < (sectionsOf s).length →
          fragMatches "KEY POINTS" ((sectionsOf s).getD i "") = false) →
        (extract s).keyPoints = keyPointsFallback)
    ∧ (∀ s : String,
        (∀ i, i + 1 < (sectionsOf s).length →
          fragMatches "QUIZ" ((sectionsOf s).getD i "") = false) →
        (extract s).quiz = quizFallback) := by
  refine ⟨?_, ?_, ?_, ?_⟩
  · intro s h
    have hs : sectionsOf s = [s] := sectionsOf_no_marker s h
    have h1 : (extract s).summary = summaryFallback s :=
      extract_summary_of_none s (by rw [hs]; rfl)
    refine ⟨h1, extract_keyPoints_of_none s (by rw [hs]; rfl),
      extract_quiz_of_none s (by rw [hs]; rfl), ?_, ?_⟩
    · intro hlen
      rw [h1]
      unfold summaryFallback
      rw [if_pos hlen]
    · intro hlen
      rw [h1]
      unfold summaryFallback
      rw [if_neg (by omega)]
  · intro s h
    exact extract_summary_of_none s (findSectionContent_eq_none _ _ h)
  · intro s h
    exact extract_keyPoints_of_none s (findSectionContent_eq_none _ _ h)
  · intro s h
    exact extract_quiz_of_none s (findSectionContent_eq_none _ _ h)

theorem C2_extract_fallbacks_witness :
    (extract "plain text with no markers").summary = "plain text with no markers"
    ∧ (extract "plain text with no markers").keyPoints =
        "Key points extracted from the lecture content."
    ∧ (extract "plain text with no markers").quiz =
        "Quiz questions based on the lecture content." := by
  have h := C2_extract_fallbacks.1 "plain text with no markers" (by decide)
  exact ⟨h.2.2.2.2 (by decide), h.2.1, h.2.2.1⟩

/-- Claim C3: whenever the transcription backend call errors, or its result is
empty after stripping, the run ends in the corresponding failure outcome and
zero study-material generation requests are issued. -/
theorem C3_no_generation_after_failed_transcription (gen : Except String String) :
    (∀ e, runPipeline (.error e) gen = (.transcriptionFailed e, 0))
    ∧ (∀ t, pyStrip t = "" → runPipeline (.ok t) gen = (.emptyTranscript, 0)) := by
  constructor
  · intro e
    rfl
  · intro t ht
    simp [runPipeline, ht]

theorem C3_no_generation_after_failed_transcription_witness :
    runPipeline (.ok "   ") (.ok "irrelevant") = (.emptyTranscript, 0) :=
  (C3_no_generation_after_failed_transcription (.ok "irrelevant")).2 "   " (by decide)

/-- Claim C4: when transcription succeeds with non-empty stripped text and the
study-material call fails, the run reports a generation error that still
carries the already-obtained transcript, and exactly one generation request
was issued. -/
theorem C4_transcript_preserved_on_generation_error (t e : String)
    (h : pyStrip t ≠ "") :
    runPipeline (.ok t) (.error e) = (.generationFailed (pyStrip t) e, 1) := by
  simp [runPipeline, h]

theorem C4_transcript_preserved_on_generation_error_witness :
    runPipeline (.ok " Hello world. ") (.error "boom") =
      (.generationFailed "Hello world." "boom", 1) := by
  have h := C4_transcript_preserved_on_generation_error " Hello world. " "boom" (by decide)
  rw [h]
  decide

/-- Claim C5 counterexample: the dotless filename `"mp3"` has no extension
after a last `'.'`, yet `resolveMime` returns `audio/mp3`, not the claimed
default `audio/mpeg`. -/
theorem C5_mime_default_counterexample :
    ('.' ∉ "mp3".data) ∧ resolveMime "mp3" = "audio/mp3"
      ∧ ("audio/mp3" : String) ≠ "audio/mpeg" := by decide

/-- Claim C5 (amended): for a filename containing a `'.'`, the lower-cased
text after the last `'.'` is looked up in the fixed table with default
`audio/mpeg`; for a dotless filename the entire lower-cased name is used as
the extension key instead of defaulting; the call is total. -/
theorem C5_mime_resolution_amended :
    (∀ b e : String, '.' ∉ e.data →
      resolveMime (b ++ "." ++ e) =
        (mime_type_map.lookup (String.mk (e.data.map Char.toLower))).getD "audio/mpeg")
    ∧ (∀ f : String, '.' ∉ f.data →
        resolveMime f =
          (mime_type_map.lookup (String.mk (f.data.map Char.toLower))).getD "audio/mpeg") :=
  ⟨fun b e h => resolveMime_with_dot b e h, fun f h => resolveMime_no_dot f h⟩

theorem C5_mime_resolution_amended_witness :
    resolveMime ("lecture" ++ "." ++ "wav") = "audio/wav" := by
  have h := C5_mime_resolution_amended.1 "lecture" "wav" (by decide)
  rw [h]
  decide

/-- Claim C6: `extract` is total and each of the three fields is populated,
either with content located by the fragment search or with that field's
defined fallback. -/
theorem C6_extract_total (s : String) :
    ((extract s).summary = summaryFallback s
      ∨ ∃ c, findSectionContent "SUMMARY" (sectionsOf s) = some c ∧ (extract s).summary = c)
    ∧ ((extract s).keyPoints = keyPointsFallback
      ∨ ∃ c, findSectionContent "KEY POINTS" (sectionsOf s) = some c
          ∧ (extract s).keyPoints = c)
    ∧ ((extract s).quiz = quizFallback
      ∨ ∃ c, findSectionContent "QUIZ" (sectionsOf s) = some c ∧ (extract s).quiz = c) := by
  refine ⟨?_, ?_, ?_⟩
  · cases h : findSectionContent "SUMMARY" (sectionsOf s) with
    | none => exact Or.inl (extract_summary_of_none s h)
    | some c => exact Or.inr ⟨c, rfl, extract_summary_of_some s c h⟩
  · cases h : findSectionContent "KEY POINTS" (sectionsOf s) with
    | none => exact Or.inl (extract_keyPoints_of_none s h)
    | some c => exact Or.inr ⟨c, rfl, extract_keyPoints_of_some s c h⟩
  · cases h : findSectionContent "QUIZ" (sectionsOf s) with
    | none => exact Or.inl (extract_quiz_of_none s h)
    | some c => exact Or.inr ⟨c, rfl, extract_quiz_of_some s c h⟩

/-- Claim C7: the study prompt embeds the literal transcript text, the decimal
question count and the lower-cased difficulty label, and contains the three
headers `SUMMARY`, `KEY POINTS` and `QUIZ`, each wrapped in the `**` markup
the extractor splits on. -/
theorem C7_study_prompt_contents (t : String) (n : Nat) (d : String) :
    containsSub "**SUMMARY**".data (buildStudyPrompt t n d).data = true
    ∧ containsSub "**KEY POINTS**".data (buildStudyPrompt t n d).data = true
    ∧ containsSub "**QUIZ**".data (buildStudyPrompt t n d).data = true
    ∧ containsSub t.data (buildStudyPrompt t n d).data = true
    ∧ containsSub (toString n).data (buildStudyPrompt t n d).data = true
    ∧ containsSub (pyLower d).data (buildStudyPrompt t n d).data = true := by
  refine ⟨?_, ?_, ?_, ?_, ?_, ?_⟩
  · exact containsSub_intro _ studySeg1.data
      (studySeg2 ++ "**KEY POINTS**" ++ studySeg3 ++ "**QUIZ**" ++ studySeg4 ++
        toString n ++ " " ++ pyLower d ++ studySeg5 ++ t ++ studySeg6).data _
      (by simp [buildStudyPrompt, String.data_append, List.append_assoc])
  · exact containsSub_intro _
      (studySeg1 ++ "**SUMMARY**" ++ studySeg2).data
      (studySeg3 ++ "**QUIZ**" ++ studySeg4 ++ toString n ++ " " ++ pyLower d ++
        studySeg5 ++ t ++ studySeg6).data _
      (by simp [buildStudyPrompt, String.data_append, List.append_assoc])
  · exact containsSub_intro _
      (studySeg1 ++ "**SUMMARY**" ++ studySeg2 ++ "**KEY POINTS**" ++ studySeg3).data
      (studySeg4 ++ toString n ++ " " ++ pyLower d ++ studySeg5 ++ t ++ studySeg6).data _
      (by simp [buildStudyPrompt, String.data_append, List.append_assoc])
  · exact containsSub_intro _
      (studySeg1 ++ "**SUMMARY**" ++ studySeg2 ++ "**KEY POINTS**" ++ studySeg3 ++
        "**QUIZ**" ++ studySeg4 ++ toString n ++ " " ++ pyLower d ++ studySeg5).data
      studySeg6.data _
      (by simp [buildStudyPrompt, String.data_append, List.append_assoc])
  · exact containsSub_intro _
      (studySeg1 ++ "**SUMMARY**" ++ studySeg2 ++ "**KEY POINTS**" ++ studySeg3 ++
        "**QUIZ**" ++ studySeg4).data
      (" " ++ pyLower d ++ studySeg5 ++ t ++ studySeg6).data _
      (by simp [buildStudyPrompt, String.data_append, List.append_assoc])
  · exact containsSub_intro _
      (studySeg1 ++ "**SUMMARY**" ++ studySeg2 ++ "**KEY POINTS**" ++ studySeg3 ++
        "**QUIZ**" ++ studySeg4 ++ toString n ++ " ").data
      (studySeg5 ++ t ++ studySeg6).data _
      (by simp [buildStudyPrompt, String.data_append, List.append_assoc])

/-- Claim C8: the transcription prompt contains the timestamp clause iff
`include_timestamps` is true; with it false, the prompt is exactly the fixed
base instruction. -/
theorem C8_timestamp_clause (b : Bool) :
    (b = true →
      containsSub timestampClause.data (buildTranscriptionPrompt b).data = true)
    ∧ (b = false →
      containsSub timestampClause.data (buildTranscriptionPrompt b).data = false
      ∧ buildTranscriptionPrompt b = transcriptionBase) := by
  cases b with
  | false =>
    refine ⟨fun h => by simp at h, fun _ => ⟨by decide, rfl⟩⟩
  | true =>
    refine ⟨fun _ => ?_, fun h => by simp at h⟩
    exact containsSub_intro _ transcriptionBase.data [] _
      (by simp [buildTranscriptionPrompt, String.data_append])

theorem C8_timestamp_clause_witness :
    buildTranscriptionPrompt false = transcriptionBase
    ∧ containsSub timestampClause.data (buildTranscriptionPrompt true).data = true :=
  ⟨((C8_timestamp_clause false).2 rfl).2, (C8_timestamp_clause true).1 rfl⟩

/-- Claim C9: the complete-notes text export is the generated block prefixed
with the literal `LECTURE NOTES` banner, and the Markdown study guide contains
the fixed headers `# Study Guide`, `## Transcript` and
`## Generated Study Materials`, with the transcript and the generated content
placed directly under the latter two headers. -/
theorem C9_export_formats (f t g : String) :
    completeNotesExport g = "LECTURE NOTES\n\n" ++ g
    ∧ leadsWith "LECTURE NOTES".data (completeNotesExport g).data = true
    ∧ containsSub "# Study Guide".data (studyGuideExport f t g).data = true
    ∧ containsSub ("## Transcript\n" ++ t).data (studyGuideExport f t g).data = true
    ∧ containsSub ("## Generated Study Materials\n" ++ g).data
        (studyGuideExport f t g).data = true := by
  refine ⟨rfl, ?_, ?_, ?_, ?_⟩
  · have hb : ("LECTURE NOTES\n\n" : String).data =
        "LECTURE NOTES".data ++ "\n\n".data := by decide
    have h1 : (completeNotesExport g).data =
        "LECTURE NOTES".data ++ ("\n\n".data ++ g.data) := by
      simp [completeNotesExport, String.data_append, hb, List.append_assoc]
    rw [h1]
    exact leadsWith_append _ _
  · exact containsSub_intro _ ("\n" : String).data
      (": " ++ f ++ "\n\n" ++ "## Transcript\n" ++ t ++ "\n\n" ++
        "## Generated Study Materials\n" ++ g ++
        "\n\n---\nGenerated by Lecture Voice-to-Notes Generator\n").data _
      (by simp [studyGuideExport, String.data_append, List.append_assoc])
  · exact containsSub_intro _
      ("\n" ++ "# Study Guide" ++ ": " ++ f ++ "\n\n").data
      ("\n\n" ++ "## Generated Study Materials\n" ++ g ++
        "\n\n---\nGenerated by Lecture Voice-to-Notes Generator\n").data _
      (by simp [studyGuideExport, String.data_append, List.append_assoc])
  · exact containsSub_intro _
      ("\n" ++ "# Study Guide" ++ ": " ++ f ++ "\n\n" ++ "## Transcript\n" ++ t ++
        "\n\n").data
      ("\n\n---\nGenerated by Lecture Voice-to-Notes Generator\n").data _
      (by simp [studyGuideExport, String.data_append, List.append_assoc])

/-- Claim C10: a filename with no `'.'` is treated whole (lower-cased) as the
extension: a dotless name matching a table key resolves to that key's type
(`"mp3"` to `audio/mp3`), any other dotless name to the default `audio/mpeg`. -/
theorem C10_dotless_filename (f : String) (h : '.' ∉ f.data) :
    resolveMime f =
        (mime_type_map.lookup (String.mk (f.data.map Char.toLower))).getD "audio/mpeg"
    ∧ resolveMime "mp3" = "audio/mp3"
    ∧ resolveMime "noext" = "audio/mpeg" :=
  ⟨resolveMime_no_dot f h, by decide, by decide⟩

theorem C10_dotless_filename_witness : resolveMime "MP3" = "audio/mp3" := by
  have h := (C10_dotless_filename "MP3" (by decide)).1
  rw [h]
  decide
